import Mathlib

/-!
Shallow embedding of the session-economics simulator
(`.research/session-simulator/simulate.py`).

Conventions of the embedding:
* Python ints are `ℤ`; Python numeric values that flow through `/` are `ℚ`
  (the source's arithmetic on the modelled inputs is exact).
* The float sentinel `float('inf')` used for the eviction rate is the
  constructor `EvictionRate.never`; a finite rate is `EvictionRate.finite k`.
* The float sentinel `float('inf')` used for the break-even result is
  `Option.none`; a finite break-even value is `Option.some q`.
* Python `int(x)` (truncation toward zero) is `truncToInt`.
* The module-level constants `ALIAS_SAVINGS_PER_QUERY` and `AVG_LIST_ITEMS`
  are passed to `calculate_alias_savings_per_query` as explicit parameters
  (the source reads them as globals); `simulate_session` applies the
  module-level values, exactly as the source does.
* The sequence of local assignments inside `simulate_session` is split into
  the named definitions `query_breakdown_of`, `total_savings_of`,
  `avg_saving_of`, `break_even_of`, each a verbatim transcription of the
  corresponding source lines.
-/

namespace SessionSim

/-- `SCHEMA_CALL_TOKENS = 10` (tool call overhead). -/
def SCHEMA_CALL_TOKENS : ℚ := 10

/-- `SCHEMA_RESPONSE_TOKENS = 71`. -/
def SCHEMA_RESPONSE_TOKENS : ℚ := 71

/-- `SCHEMA_RESULT_OVERHEAD = 4`. -/
def SCHEMA_RESULT_OVERHEAD : ℚ := 4

/-- `SCHEMA_TOTAL_ROUNDTRIP = SCHEMA_CALL_TOKENS + SCHEMA_RESPONSE_TOKENS + SCHEMA_RESULT_OVERHEAD` (= 85). -/
def SCHEMA_TOTAL_ROUNDTRIP : ℚ :=
  SCHEMA_CALL_TOKENS + SCHEMA_RESPONSE_TOKENS + SCHEMA_RESULT_OVERHEAD

/-- The alias-savings lookup table of the source (`ALIAS_SAVINGS_PER_QUERY` dict):
four named constants. -/
structure AliasSavings where
  compact_list : ℚ
  compact_get : ℚ
  json_get : ℚ
  json_list_per_item : ℚ
deriving DecidableEq

/-- `ALIAS_SAVINGS_PER_QUERY = {"compact_list": 5, "compact_get": 5, "json_get": 3, "json_list_per_item": 3}`. -/
def ALIAS_SAVINGS_PER_QUERY : AliasSavings :=
  { compact_list := 5, compact_get := 5, json_get := 3, json_list_per_item := 3 }

/-- `QUERY_MIX = {"get": 0.50, "list": 0.30, "summary": 0.10, "other": 0.10}`,
as an insertion-ordered association list (Python dicts preserve insertion order). -/
def QUERY_MIX : List (String × ℚ) :=
  [("get", 1/2), ("list", 3/10), ("summary", 1/10), ("other", 1/10)]

/-- `AVG_LIST_ITEMS = 10`. -/
def AVG_LIST_ITEMS : ℚ := 10

/-- The eviction-rate input: a finite integer number of turns, or the
`float('inf')` sentinel meaning the dictionary is never evicted. -/
inductive EvictionRate where
  | finite (k : ℤ) : EvictionRate
  | never : EvictionRate
deriving DecidableEq

/-- Python `int(x)`: truncation toward zero. -/
def truncToInt (x : ℚ) : ℤ := if 0 ≤ x then ⌊x⌋ else ⌈x⌉

/-- `calculate_schema_calls(session_length, eviction_rate)`:
`1` when the rate is the infinity sentinel, otherwise
`1 + max(0, (session_length - 1) // eviction_rate)` (Python `//` is `Int.fdiv`). -/
def calculate_schema_calls (session_length : ℤ) : EvictionRate → ℤ
  | .never => 1
  | .finite k => 1 + max 0 ((session_length - 1).fdiv k)

/-- `calculate_alias_savings_per_query(output_format, query_type)`, with the
globals `ALIAS_SAVINGS_PER_QUERY` and `AVG_LIST_ITEMS` passed explicitly.
The branch order is the source's: summary/other first, then the compact
branch, then the get/list/fallthrough cases of the JSON branch. -/
def calculate_alias_savings_per_query (savings : AliasSavings) (avg_list_items : ℚ)
    (output_format : String) (query_type : String) : ℚ :=
  if query_type = "other" ∨ query_type = "summary" then 0
  else if output_format = "compact" then savings.compact_list
  else if query_type = "get" then savings.json_get
  else if query_type = "list" then savings.json_list_per_item * avg_list_items
  else 0

/-- The `query_breakdown` dict built by the loop in `simulate_session`:
for each mix entry, `n_queries = int(session_length * proportion)`,
`per_query_saving` via `calculate_alias_savings_per_query`, and
`type_savings = n_queries * per_query_saving`. -/
structure QueryBreakdown where
  count : ℤ
  savings_per_query : ℚ
  total_savings : ℚ
deriving DecidableEq

/-- The per-type breakdown accumulated by the `for qtype, proportion in QUERY_MIX.items()` loop. -/
def query_breakdown_of (session_length : ℤ) (output_format : String) :
    List (String × QueryBreakdown) :=
  QUERY_MIX.map fun p =>
    let n_queries := truncToInt ((session_length : ℚ) * p.2)
    let per_query_saving :=
      calculate_alias_savings_per_query ALIAS_SAVINGS_PER_QUERY AVG_LIST_ITEMS
        output_format p.1
    (p.1, ⟨n_queries, per_query_saving, (n_queries : ℚ) * per_query_saving⟩)

/-- `total_savings`: the sum accumulated by the loop (`total_savings += type_savings`). -/
def total_savings_of (session_length : ℤ) (output_format : String) : ℚ :=
  ((query_breakdown_of session_length output_format).map fun q => q.2.total_savings).sum

/-- `avg_saving_per_query = total_savings / session_length if session_length > 0 else 0`. -/
def avg_saving_of (session_length : ℤ) (output_format : String) : ℚ :=
  if 0 < session_length then
    total_savings_of session_length output_format / (session_length : ℚ)
  else 0

/-- The cycle length used at the break-even step:
`eviction_rate if eviction_rate != float('inf') else session_length`. -/
def cycleLength (session_length : ℤ) : EvictionRate → ℚ
  | .finite k => (k : ℚ)
  | .never => (session_length : ℚ)

/-- The break-even computation of `simulate_session` (lines 136-146):
if `avg_saving_per_query > 0` and
`savings_per_cycle = avg_saving_per_query * cycle_length > SCHEMA_TOTAL_ROUNDTRIP`
then `SCHEMA_TOTAL_ROUNDTRIP / avg_saving_per_query`, else the infinity sentinel. -/
def break_even_of (session_length : ℤ) (eviction_rate : EvictionRate)
    (output_format : String) : Option ℚ :=
  if 0 < avg_saving_of session_length output_format then
    if SCHEMA_TOTAL_ROUNDTRIP <
        avg_saving_of session_length output_format *
          cycleLength session_length eviction_rate then
      some (SCHEMA_TOTAL_ROUNDTRIP / avg_saving_of session_length output_format)
    else none
  else none

/-- The result dict returned by `simulate_session`. -/
structure SimulationResult where
  session_length : ℤ
  eviction_rate : EvictionRate
  output_format : String
  schema_calls : ℤ
  total_schema_cost : ℚ
  total_alias_savings : ℚ
  net_balance : ℚ
  break_even_queries : Option ℚ
  avg_saving_per_query : ℚ
  query_breakdown : List (String × QueryBreakdown)
deriving DecidableEq

/-- `simulate_session(session_length, eviction_rate, output_format)`. -/
def simulate_session (session_length : ℤ) (eviction_rate : EvictionRate)
    (output_format : String) : SimulationResult where
  session_length := session_length
  eviction_rate := eviction_rate
  output_format := output_format
  schema_calls := calculate_schema_calls session_length eviction_rate
  total_schema_cost :=
    (calculate_schema_calls session_length eviction_rate : ℚ) * SCHEMA_TOTAL_ROUNDTRIP
  total_alias_savings := total_savings_of session_length output_format
  net_balance := total_savings_of session_length output_format -
    (calculate_schema_calls session_length eviction_rate : ℚ) * SCHEMA_TOTAL_ROUNDTRIP
  break_even_queries := break_even_of session_length eviction_rate output_format
  avg_saving_per_query := avg_saving_of session_length output_format
  query_breakdown := query_breakdown_of session_length output_format

/-! ### Helper lemmas -/

/-- Python `int` truncation agrees with the floor on nonnegative arguments. -/
theorem truncToInt_eq_floor {x : ℚ} (hx : 0 ≤ x) : truncToInt x = ⌊x⌋ := if_pos hx

/-- `Int.fdiv` of nonnegative integers is the floor of the rational quotient. -/
theorem fdiv_eq_rat_floor (n : ℤ) (d : ℕ) :
    n.fdiv (d : ℤ) = ⌊(n : ℚ) / (d : ℚ)⌋ := by
  rw [Int.fdiv_eq_ediv _ (by positivity), Rat.floor_intCast_div_natCast n d]

/-! ### Claims about `calculate_schema_calls` -/

/-- Claim C2: for every `session_length ≥ 1`, `calculate_schema_calls` returns
exactly `1` on the "never" sentinel, returns `1 + ⌊(session_length - 1) / eviction_rate⌋`
for every finite `eviction_rate ≥ 1`, and its result is always at least 1. -/
theorem calculate_schema_calls_spec (session_length : ℤ) (h : 1 ≤ session_length) :
    calculate_schema_calls session_length .never = 1 ∧
    (∀ k : ℤ, 1 ≤ k →
      calculate_schema_calls session_length (.finite k) =
        1 + ⌊((session_length : ℚ) - 1) / (k : ℚ)⌋) ∧
    (∀ er : EvictionRate, 1 ≤ calculate_schema_calls session_length er) := by
  refine ⟨rfl, ?_, ?_⟩
  · intro k hk
    lift k to ℕ using by omega
    have h0 : (0 : ℤ) ≤ session_length - 1 := by omega
    show 1 + max 0 ((session_length - 1).fdiv (k : ℤ)) = _
    rw [max_eq_right (Int.fdiv_nonneg h0 (by positivity)),
      fdiv_eq_rat_floor _ _]
    congr 2
    push_cast
    ring
  · intro er
    cases er with
    | never => exact le_refl 1
    | finite k =>
      show 1 ≤ 1 + max 0 ((session_length - 1).fdiv k)
      have := le_max_left (0 : ℤ) ((session_length - 1).fdiv k)
      omega

/-- Witness for C2 at `session_length = 20`, `eviction_rate = 10`. -/
theorem calculate_schema_calls_spec_witness :
    calculate_schema_calls 20 .never = 1 ∧
    calculate_schema_calls 20 (.finite 10) = 1 + ⌊((20 : ℚ) - 1) / (10 : ℚ)⌋ ∧
    1 ≤ calculate_schema_calls 20 (.finite 10) :=
  ⟨(calculate_schema_calls_spec 20 (by norm_num)).1,
   (calculate_schema_calls_spec 20 (by norm_num)).2.1 10 (by norm_num),
   (calculate_schema_calls_spec 20 (by norm_num)).2.2 (.finite 10)⟩

/-! ### Claims about `calculate_alias_savings_per_query` -/

/-- Claim C4: under the `compact` output format the per-query saving for both
`get` and `list` is exactly the `compact_list` constant, for every value of the
average-items-per-list parameter (the result does not depend on it). -/
theorem compact_saving_size_invariant (avg_list_items : ℚ) :
    calculate_alias_savings_per_query ALIAS_SAVINGS_PER_QUERY avg_list_items
        "compact" "get" = ALIAS_SAVINGS_PER_QUERY.compact_list ∧
    calculate_alias_savings_per_query ALIAS_SAVINGS_PER_QUERY avg_list_items
        "compact" "list" = ALIAS_SAVINGS_PER_QUERY.compact_list := by
  constructor <;> rfl

/-- Claim C5: under the `json` output format, a `get` query saves the `json_get`
constant, a `list` query saves `json_list_per_item × average_items_per_list`,
and doubling the average item count doubles the `list` saving. -/
theorem json_saving_scales_with_items (avg_list_items : ℚ) :
    calculate_alias_savings_per_query ALIAS_SAVINGS_PER_QUERY avg_list_items
        "json" "get" = ALIAS_SAVINGS_PER_QUERY.json_get ∧
    calculate_alias_savings_per_query ALIAS_SAVINGS_PER_QUERY avg_list_items
        "json" "list" = ALIAS_SAVINGS_PER_QUERY.json_list_per_item * avg_list_items ∧
    calculate_alias_savings_per_query ALIAS_SAVINGS_PER_QUERY (2 * avg_list_items)
        "json" "list" =
      2 * calculate_alias_savings_per_query ALIAS_SAVINGS_PER_QUERY avg_list_items
        "json" "list" := by
  refine ⟨rfl, rfl, ?_⟩
  show ALIAS_SAVINGS_PER_QUERY.json_list_per_item * (2 * avg_list_items) =
    2 * (ALIAS_SAVINGS_PER_QUERY.json_list_per_item * avg_list_items)
  ring

/-- Claim C10: with an arbitrary savings table (so in particular whatever the
`compact_get` entry holds), the `compact` branch returns the `compact_list`
constant for every query type other than `summary` and `other` — including
labels absent from the table — while the `json` branch returns `0` for every
query type other than `get`, `list`, `summary`, `other`. -/
theorem alias_savings_fallthrough (savings : AliasSavings) (avg_list_items : ℚ)
    (query_type : String) (h1 : query_type ≠ "summary") (h2 : query_type ≠ "other") :
    calculate_alias_savings_per_query savings avg_list_items "compact" query_type =
      savings.compact_list ∧
    (query_type ≠ "get" → query_type ≠ "list" →
      calculate_alias_savings_per_query savings avg_list_items "json" query_type = 0) := by
  constructor
  · simp [calculate_alias_savings_per_query, h1, h2]
  · intro h3 h4
    simp [calculate_alias_savings_per_query, h1, h2, h3, h4]

/-- Witness for C10 at the query-type label `"frobnicate"`, absent from the table. -/
theorem alias_savings_fallthrough_witness :
    calculate_alias_savings_per_query ALIAS_SAVINGS_PER_QUERY AVG_LIST_ITEMS
        "compact" "frobnicate" = ALIAS_SAVINGS_PER_QUERY.compact_list ∧
    calculate_alias_savings_per_query ALIAS_SAVINGS_PER_QUERY AVG_LIST_ITEMS
        "json" "frobnicate" = 0 :=
  ⟨(alias_savings_fallthrough ALIAS_SAVINGS_PER_QUERY AVG_LIST_ITEMS "frobnicate"
      (by decide) (by decide)).1,
   (alias_savings_fallthrough ALIAS_SAVINGS_PER_QUERY AVG_LIST_ITEMS "frobnicate"
      (by decide) (by decide)).2 (by decide) (by decide)⟩

/-! ### Claims about `simulate_session` -/

/-- Claim C8: for fixed `session_length ≥ 1`, `schema_calls` is non-increasing
as the eviction rate increases: for finite rates `1 ≤ k1 ≤ k2` the call count at
`k2` is at most the count at `k1`, and the "never" sentinel (larger than every
finite rate) gives a count at most that of any finite rate `k ≥ 1`. -/
theorem schema_calls_monotone (session_length : ℤ) (h : 1 ≤ session_length) :
    (∀ k1 k2 : ℤ, 1 ≤ k1 → k1 ≤ k2 →
      calculate_schema_calls session_length (.finite k2) ≤
        calculate_schema_calls session_length (.finite k1)) ∧
    (∀ k : ℤ, 1 ≤ k →
      calculate_schema_calls session_length .never ≤
        calculate_schema_calls session_length (.finite k)) := by
  constructor
  · intro k1 k2 hk1 hk12
    have h0 : (0 : ℤ) ≤ session_length - 1 := by omega
    obtain ⟨m, hm⟩ : ∃ m : ℕ, session_length - 1 = (m : ℤ) :=
      ⟨(session_length - 1).toNat, (Int.toNat_of_nonneg h0).symm⟩
    obtain ⟨n1, hn1⟩ : ∃ n1 : ℕ, k1 = (n1 : ℤ) :=
      ⟨k1.toNat, (Int.toNat_of_nonneg (by omega)).symm⟩
    obtain ⟨n2, hn2⟩ : ∃ n2 : ℕ, k2 = (n2 : ℤ) :=
      ⟨k2.toNat, (Int.toNat_of_nonneg (by omega)).symm⟩
    show 1 + max 0 ((session_length - 1).fdiv k2) ≤
      1 + max 0 ((session_length - 1).fdiv k1)
    rw [hm, hn1, hn2, ← Int.ofNat_fdiv, ← Int.ofNat_fdiv]
    have hdiv : m / n2 ≤ m / n1 := by
      apply Nat.div_le_div_left
      · exact_mod_cast hn1 ▸ hn2 ▸ hk12
      · have : (0 : ℤ) < (n1 : ℤ) := by omega
        exact_mod_cast this
    have : ((m / n2 : ℕ) : ℤ) ≤ ((m / n1 : ℕ) : ℤ) := by exact_mod_cast hdiv
    omega
  · intro k hk
    show (1 : ℤ) ≤ 1 + max 0 ((session_length - 1).fdiv k)
    have := le_max_left (0 : ℤ) ((session_length - 1).fdiv k)
    omega

/-- Witness for C8 at `session_length = 20`, comparing the rates 10 ≤ 50 and
the "never" sentinel against the rate 10. -/
theorem schema_calls_monotone_witness :
    calculate_schema_calls 20 (.finite 50) ≤ calculate_schema_calls 20 (.finite 10) ∧
    calculate_schema_calls 20 .never ≤ calculate_schema_calls 20 (.finite 10) :=
  ⟨(schema_calls_monotone 20 (by norm_num)).1 10 50 (by norm_num) (by norm_num),
   (schema_calls_monotone 20 (by norm_num)).2 10 (by norm_num)⟩

/-- Claim C7: for a zero-length session, `avg_saving_per_query` is `0` (the
division by `session_length` is guarded) and `break_even_queries` is the
"never" sentinel (so the division by `avg_saving_per_query` is never reached). -/
theorem zero_session_guard (eviction_rate : EvictionRate) (output_format : String) :
    (simulate_session 0 eviction_rate output_format).avg_saving_per_query = 0 ∧
    (simulate_session 0 eviction_rate output_format).break_even_queries = none := by
  have h0 : avg_saving_of 0 output_format = 0 := by
    rw [avg_saving_of, if_neg (by norm_num)]
  constructor
  · exact h0
  · show break_even_of 0 eviction_rate output_format = none
    rw [break_even_of, h0, if_neg (by norm_num)]

/-- Claim C1: for any session with `session_length ≥ 1` and positive
`total_alias_savings`, the break-even result is the "never" sentinel exactly
when `avg_saving_per_query ≤ 0` or the savings over one cycle
(`avg_saving_per_query × cycle_length`, cycle length being the eviction rate if
finite and the session length otherwise) do not exceed the schema round-trip
cost, and otherwise equals `SCHEMA_TOTAL_ROUNDTRIP / avg_saving_per_query`. -/
theorem break_even_formula (session_length : ℤ) (eviction_rate : EvictionRate)
    (output_format : String) (h1 : 1 ≤ session_length)
    (h2 : 0 < (simulate_session session_length eviction_rate output_format).total_alias_savings) :
    (simulate_session session_length eviction_rate output_format).break_even_queries =
      if (simulate_session session_length eviction_rate output_format).avg_saving_per_query ≤ 0 ∨
          (simulate_session session_length eviction_rate output_format).avg_saving_per_query *
            cycleLength session_length eviction_rate ≤ SCHEMA_TOTAL_ROUNDTRIP
      then none
      else some (SCHEMA_TOTAL_ROUNDTRIP /
        (simulate_session session_length eviction_rate output_format).avg_saving_per_query) := by
  have htot : 0 < total_savings_of session_length output_format := h2
  have hsl : (0 : ℤ) < session_length := by omega
  have havg : 0 < avg_saving_of session_length output_format := by
    rw [avg_saving_of, if_pos hsl]
    exact div_pos htot (by exact_mod_cast hsl)
  show break_even_of session_length eviction_rate output_format =
    if avg_saving_of session_length output_format ≤ 0 ∨
        avg_saving_of session_length output_format *
          cycleLength session_length eviction_rate ≤ SCHEMA_TOTAL_ROUNDTRIP
    then none
    else some (SCHEMA_TOTAL_ROUNDTRIP / avg_saving_of session_length output_format)
  rcases lt_or_le SCHEMA_TOTAL_ROUNDTRIP
      (avg_saving_of session_length output_format *
        cycleLength session_length eviction_rate) with hgt | hle
  · rw [break_even_of, if_pos havg, if_pos hgt, if_neg]
    push_neg
    exact ⟨havg, hgt⟩
  · rw [break_even_of, if_pos havg, if_neg (not_lt.mpr hle), if_pos (Or.inr hle)]

/-- Witness for C1 at `session_length = 50`, never-evicting, `json` format. -/
theorem break_even_formula_witness :
    (1 : ℤ) ≤ 50 ∧
    0 < (simulate_session 50 .never "json").total_alias_savings ∧
    (simulate_session 50 .never "json").break_even_queries =
      (if (simulate_session 50 .never "json").avg_saving_per_query ≤ 0 ∨
          (simulate_session 50 .never "json").avg_saving_per_query *
            cycleLength 50 .never ≤ SCHEMA_TOTAL_ROUNDTRIP
       then none
       else some (SCHEMA_TOTAL_ROUNDTRIP /
        (simulate_session 50 .never "json").avg_saving_per_query)) := by
  have hpos : 0 < (simulate_session 50 .never "json").total_alias_savings := by
    show 0 < total_savings_of 50 "json"
    norm_num +decide [total_savings_of, query_breakdown_of, QUERY_MIX, truncToInt,
      calculate_alias_savings_per_query, ALIAS_SAVINGS_PER_QUERY, AVG_LIST_ITEMS]
  exact ⟨by norm_num, hpos, break_even_formula 50 .never "json" (by norm_num) hpos⟩

/-- Claim C9: whenever `simulate_session` produces a finite break-even value,
that value is strictly smaller than the cycle length (the eviction rate when
finite, the session length under the "never" sentinel). -/
theorem break_even_lt_cycle (session_length : ℤ) (eviction_rate : EvictionRate)
    (output_format : String) (q : ℚ)
    (h : (simulate_session session_length eviction_rate output_format).break_even_queries =
      some q) :
    q < cycleLength session_length eviction_rate := by
  have h' : break_even_of session_length eviction_rate output_format = some q := h
  rw [break_even_of] at h'
  by_cases hA : 0 < avg_saving_of session_length output_format
  · rw [if_pos hA] at h'
    by_cases hB : SCHEMA_TOTAL_ROUNDTRIP <
        avg_saving_of session_length output_format *
          cycleLength session_length eviction_rate
    · rw [if_pos hB] at h'
      have hq : q = SCHEMA_TOTAL_ROUNDTRIP / avg_saving_of session_length output_format :=
        (Option.some.injEq _ _ ▸ h').symm
      rw [hq, div_lt_iff₀ hA, mul_comm]
      exact hB
    · rw [if_neg hB] at h'
      exact absurd h' (by simp)
  · rw [if_neg hA] at h'
    exact absurd h' (by simp)

/-- Witness for C9: at `session_length = 50`, never-evicting, `json` format the
break-even value `170/21` is strictly below the cycle length `50`. -/
theorem break_even_lt_cycle_witness :
    (simulate_session 50 .never "json").break_even_queries = some (170 / 21) ∧
    (170 / 21 : ℚ) < cycleLength 50 .never := by
  have hb : (simulate_session 50 .never "json").break_even_queries = some (170 / 21) := by
    show break_even_of 50 .never "json" = some (170 / 21)
    norm_num +decide [break_even_of, avg_saving_of, cycleLength, SCHEMA_TOTAL_ROUNDTRIP,
      SCHEMA_CALL_TOKENS, SCHEMA_RESPONSE_TOKENS, SCHEMA_RESULT_OVERHEAD,
      total_savings_of, query_breakdown_of, QUERY_MIX, truncToInt,
      calculate_alias_savings_per_query, ALIAS_SAVINGS_PER_QUERY, AVG_LIST_ITEMS]
  exact ⟨hb, break_even_lt_cycle 50 .never "json" (170 / 21) hb⟩

/-- Claim C3: for every query type in the mix, the per-type count is
`⌊session_length × proportion⌋`, the per-type subtotal is
`count × per_query_saving`, and `total_alias_savings` is the sum of the
subtotals over the mix. -/
theorem breakdown_counts_and_sum (session_length : ℤ) (eviction_rate : EvictionRate)
    (output_format : String) (h : 0 ≤ session_length) :
    (simulate_session session_length eviction_rate output_format).query_breakdown =
      QUERY_MIX.map (fun p =>
        (p.1, ⟨⌊(session_length : ℚ) * p.2⌋,
          calculate_alias_savings_per_query ALIAS_SAVINGS_PER_QUERY AVG_LIST_ITEMS
            output_format p.1,
          (⌊(session_length : ℚ) * p.2⌋ : ℤ) *
            calculate_alias_savings_per_query ALIAS_SAVINGS_PER_QUERY AVG_LIST_ITEMS
              output_format p.1⟩)) ∧
    (simulate_session session_length eviction_rate output_format).total_alias_savings =
      (QUERY_MIX.map (fun p =>
        (⌊(session_length : ℚ) * p.2⌋ : ℤ) *
          calculate_alias_savings_per_query ALIAS_SAVINGS_PER_QUERY AVG_LIST_ITEMS
            output_format p.1)).sum := by
  have hq : (0 : ℚ) ≤ (session_length : ℚ) := by exact_mod_cast h
  have t : ∀ c : ℚ, 0 ≤ c →
      truncToInt ((session_length : ℚ) * c) = ⌊(session_length : ℚ) * c⌋ :=
    fun c hc => truncToInt_eq_floor (mul_nonneg hq hc)
  constructor
  · show query_breakdown_of session_length output_format = _
    rw [query_breakdown_of]
    refine List.map_congr_left ?_
    intro p hp
    have hc : 0 ≤ p.2 := by
      simp only [QUERY_MIX, List.mem_cons, List.not_mem_nil, or_false] at hp
      rcases hp with h | h | h | h <;> (rw [h]; norm_num)
    simp only [t p.2 hc]
  · show total_savings_of session_length output_format = _
    rw [total_savings_of, query_breakdown_of, List.map_map]
    congr 1
    refine List.map_congr_left ?_
    intro p hp
    have hc : 0 ≤ p.2 := by
      simp only [QUERY_MIX, List.mem_cons, List.not_mem_nil, or_false] at hp
      rcases hp with h | h | h | h <;> (rw [h]; norm_num)
    simp only [Function.comp_apply, t p.2 hc]

/-- Witness for C3 at `session_length = 50`, `json` format. -/
theorem breakdown_counts_and_sum_witness :
    (0 : ℤ) ≤ 50 ∧
    (simulate_session 50 .never "json").query_breakdown =
      QUERY_MIX.map (fun p =>
        (p.1, ⟨⌊(50 : ℚ) * p.2⌋,
          calculate_alias_savings_per_query ALIAS_SAVINGS_PER_QUERY AVG_LIST_ITEMS
            "json" p.1,
          (⌊(50 : ℚ) * p.2⌋ : ℤ) *
            calculate_alias_savings_per_query ALIAS_SAVINGS_PER_QUERY AVG_LIST_ITEMS
              "json" p.1⟩)) ∧
    (simulate_session 50 .never "json").total_alias_savings =
      (QUERY_MIX.map (fun p =>
        (⌊(50 : ℚ) * p.2⌋ : ℤ) *
          calculate_alias_savings_per_query ALIAS_SAVINGS_PER_QUERY AVG_LIST_ITEMS
            "json" p.1)).sum := by
  have h := breakdown_counts_and_sum 50 .never "json" (by norm_num)
  exact ⟨by norm_num, by exact_mod_cast h.1, h.2⟩

/-- Claim C6: concrete scenario B — `session_length = 50`, never-evicting,
`json` format: one schema call costing 85 tokens, total alias savings 525,
net balance 440, average saving per query 10.5, and a finite break-even
value of `85 / 10.5` (= 170/21 ≈ 8.095) queries. -/
theorem scenario_B :
    (simulate_session 50 .never "json").schema_calls = 1 ∧
    (simulate_session 50 .never "json").total_schema_cost = 85 ∧
    (simulate_session 50 .never "json").total_alias_savings = 525 ∧
    (simulate_session 50 .never "json").net_balance = 440 ∧
    (simulate_session 50 .never "json").avg_saving_per_query = 21 / 2 ∧
    (simulate_session 50 .never "json").break_even_queries = some (85 / (21 / 2)) := by
  refine ⟨rfl, ?_, ?_, ?_, ?_, ?_⟩
  · show (calculate_schema_calls 50 .never : ℚ) * SCHEMA_TOTAL_ROUNDTRIP = 85
    norm_num [calculate_schema_calls, SCHEMA_TOTAL_ROUNDTRIP, SCHEMA_CALL_TOKENS,
      SCHEMA_RESPONSE_TOKENS, SCHEMA_RESULT_OVERHEAD]
  · show total_savings_of 50 "json" = 525
    norm_num +decide [total_savings_of, query_breakdown_of, QUERY_MIX, truncToInt,
      calculate_alias_savings_per_query, ALIAS_SAVINGS_PER_QUERY, AVG_LIST_ITEMS]
  · show total_savings_of 50 "json" -
        (calculate_schema_calls 50 .never : ℚ) * SCHEMA_TOTAL_ROUNDTRIP = 440
    norm_num +decide [total_savings_of, query_breakdown_of, QUERY_MIX, truncToInt,
      calculate_alias_savings_per_query, ALIAS_SAVINGS_PER_QUERY, AVG_LIST_ITEMS,
      calculate_schema_calls, SCHEMA_TOTAL_ROUNDTRIP, SCHEMA_CALL_TOKENS,
      SCHEMA_RESPONSE_TOKENS, SCHEMA_RESULT_OVERHEAD]
  · show avg_saving_of 50 "json" = 21 / 2
    norm_num +decide [avg_saving_of, total_savings_of, query_breakdown_of, QUERY_MIX,
      truncToInt, calculate_alias_savings_per_query, ALIAS_SAVINGS_PER_QUERY,
      AVG_LIST_ITEMS]
  · show break_even_of 50 .never "json" = some (85 / (21 / 2))
    norm_num +decide [break_even_of, avg_saving_of, cycleLength, SCHEMA_TOTAL_ROUNDTRIP,
      SCHEMA_CALL_TOKENS, SCHEMA_RESPONSE_TOKENS, SCHEMA_RESULT_OVERHEAD,
      total_savings_of, query_breakdown_of, QUERY_MIX, truncToInt,
      calculate_alias_savings_per_query, ALIAS_SAVINGS_PER_QUERY, AVG_LIST_ITEMS]

end SessionSim
